import Mathlib

/-!
Shallow embedding of the el-galeri-api route handlers (Express + Mongoose CRUD
API for products, users and orders) and proofs about them.

The document store (the Mongoose models `Product`, `User`, `OrderItem`,
`Order`) is not part of the staged sources; following the spec, it is
modelled as four keyed collections with storage-assigned increasing ids:
`save` inserts a fresh document under the next id, `findById` is key lookup,
`findByIdAndUpdate` replaces the document under a key, `findByIdAndRemove`
drops the document under a key.  `populate` (the join mechanism) is modelled
by an explicit lookup of the referenced document.  Prices and quantities are
modelled as `Nat` (the routes only multiply and add them).  The `dateCreated`
and `dateOrdered` defaulted timestamp fields play no role in any route
handler and are omitted from the documents.
-/

/-- A product document (src/unnamed/part_000, Product schema).  Body fields of
a product-creation request are modelled as present strings/numbers; no claim
under verification concerns an absent product body field. -/
structure Product where
  name : String
  description : String
  detailDescription : String
  image : String
  images : List String
  price : Nat
  stock : Nat
deriving Repr, DecidableEq

/-- A user document (src/unnamed/part_000, User schema).  `name`, `email` and
`isAdmin` can be overwritten to undefined by PUT /users/:id, hence `Option`;
`password` is always written as a hash string by the handlers. -/
structure UserDoc where
  name : Option String
  email : Option String
  password : String
  isAdmin : Option Bool
deriving Repr, DecidableEq

/-- An order-item document (src/routes/orders.js): a quantity and a reference
to a product by id.  Standalone document, referenced by orders. -/
structure OrderItemDoc where
  quantity : Nat
  product : Nat
deriving Repr, DecidableEq

/-- An order document (src/routes/orders.js): references to order items, the
derived total price, and a reference to the ordering user. -/
structure OrderDoc where
  orderItems : List Nat
  totalPrice : Nat
  user : Nat
deriving Repr, DecidableEq

/-- Modelled from the spec: the document database holding the four
collections, each a keyed list of documents, with a counter supplying the
storage-assigned ids of newly saved documents. -/
structure DB where
  products : List (Nat × Product)
  users : List (Nat × UserDoc)
  orderItems : List (Nat × OrderItemDoc)
  orders : List (Nat × OrderDoc)
  nextId : Nat
deriving Repr, DecidableEq

/-- Modelled from the spec: `findByIdAndRemove` on a keyed collection — drop
the document stored under key `k`. -/
def removeId {α : Type} (l : List (Nat × α)) (k : Nat) : List (Nat × α) :=
  l.filter (fun p => p.1 != k)

/-- Modelled from the spec: `findByIdAndUpdate` on a keyed collection —
replace the document stored under key `k` by `v` (no change if `k` absent). -/
def updateId {α : Type} (l : List (Nat × α)) (k : Nat) (v : α) : List (Nat × α) :=
  l.map (fun p => if p.1 = k then (k, v) else p)

/-- The ids of a document collection are the keys already assigned; a store is
well formed when every assigned key is below the id counter (storage-assigned
ids are fresh). -/
def keysBelow {α : Type} (l : List (Nat × α)) (n : Nat) : Prop :=
  ∀ p ∈ l, p.1 < n

instance {α : Type} (l : List (Nat × α)) (n : Nat) : Decidable (keysBelow l n) :=
  List.decidableBAll _ l

/-! ## Order routes (src/routes/orders.js) -/

/-- One element of the `orderItems` array of a POST /orders request body. -/
structure OrderItemInput where
  quantity : Nat
  product : Nat
deriving Repr, DecidableEq

/-- The OrderItem document constructed from one input item
(src/routes/orders.js lines 206-209). -/
def orderItemDocOf (it : OrderItemInput) : OrderItemDoc :=
  ⟨it.quantity, it.product⟩

/-- The first step of the POST /orders handler (src/routes/orders.js lines
204-213): for each input item, construct an OrderItem document and save it,
collecting the generated ids in order. -/
def saveOrderItems (items : List OrderItemInput) (db : DB) : List Nat × DB :=
  match items with
  | [] => ([], db)
  | it :: rest =>
      let id := db.nextId
      let db1 : DB :=
        { db with
          orderItems := db.orderItems ++ [(id, orderItemDocOf it)]
          nextId := db.nextId + 1 }
      let r := saveOrderItems rest db1
      (id :: r.1, r.2)

/-- The re-fetch of one saved OrderItem joined with its product price
(src/routes/orders.js lines 217-222): `OrderItem.findById(id).populate
("product", "price")` followed by `orderItem.product.price *
orderItem.quantity`.  `none` models the thrown TypeError when the order item
or its referenced product is not found (a null crossed with a field access),
which the surrounding try/catch turns into a 500. -/
def itemTotal (oitems : List (Nat × OrderItemDoc)) (prods : List (Nat × Product))
    (id : Nat) : Option Nat :=
  match oitems.lookup id with
  | none => none
  | some oi =>
      match prods.lookup oi.product with
      | none => none
      | some p => some (p.price * oi.quantity)

/-- The second step of the POST /orders handler (src/routes/orders.js lines
215-224): `Promise.all` over the collected ids, computing each item's price
contribution; any thrown error aborts the whole step. -/
def computeTotals (oitems : List (Nat × OrderItemDoc)) (prods : List (Nat × Product)) :
    List Nat → Option (List Nat)
  | [] => some []
  | id :: rest =>
      match itemTotal oitems prods id, computeTotals oitems prods rest with
      | some t, some ts => some (t :: ts)
      | _, _ => none

/-- Outcome of the POST /orders handler. -/
inductive OrderPostResult where
  /-- 200: `res.send(order)` with the saved order document and its id. -/
  | ok (id : Nat) (o : OrderDoc)
  /-- 500: the catch branch, "Internal Server Error!s". -/
  | serverError
deriving Repr, DecidableEq

/-- The POST /orders handler (src/routes/orders.js lines 202-250): save one
OrderItem document per input item, re-fetch each to compute its price times
quantity, reduce the contributions with `(a, b) => a + b` from 0, save the
Order referencing the collected ids.  Any failure in the sequence is caught
and answered with a 500; the already-saved OrderItem documents are not
cleaned up.  (The `if (!order)` 400 branch after a successful save is dead
in this model: a successful save returns the document.) -/
def postOrder (items : List OrderItemInput) (userId : Nat) (db : DB) :
    OrderPostResult × DB :=
  let s := saveOrderItems items db
  let ids := s.1
  let db1 := s.2
  match computeTotals db1.orderItems db1.products ids with
  | none => (.serverError, db1)
  | some totalPrices =>
      let totalPrice := totalPrices.foldl (· + ·) 0
      let oid := db1.nextId
      let order : OrderDoc := ⟨ids, totalPrice, userId⟩
      (.ok oid order,
        { db1 with
          orders := db1.orders ++ [(oid, order)]
          nextId := db1.nextId + 1 })

/-- Outcome of the DELETE /orders/:id handler. -/
inductive OrderDeleteResult where
  /-- 200: "Order successfully deleted!". -/
  | ok
  /-- 404: "Order not found!". -/
  | notFound
deriving Repr, DecidableEq

/-- The DELETE /orders/:id handler (src/routes/orders.js lines 275-300):
`findByIdAndRemove` the order (404 when absent), then remove each OrderItem
document referenced by its `orderItems` (the per-item removals are
fire-and-forget in the source; they are modelled as all completing). -/
def deleteOrder (id : Nat) (db : DB) : OrderDeleteResult × DB :=
  match db.orders.lookup id with
  | none => (.notFound, db)
  | some o =>
      let db1 : DB := { db with orders := removeId db.orders id }
      let db2 : DB :=
        { db1 with
          orderItems := o.orderItems.foldl (fun l oid => removeId l oid) db1.orderItems }
      (.ok, db2)

/-! ## Product routes (src/unnamed/part_000, lines 1-334) -/

/-- A file the upload middleware stored for the request: only its generated
filename reaches the handlers. -/
structure UploadedFile where
  filename : String
deriving Repr, DecidableEq

/-- A POST /products request as the handler sees it after the upload
middleware: `file` is `none` when no image file is attached (the `!file`
branch of the source), and `protocol`/`host` feed the absolute base URL
built by the handler. -/
structure ProductPostReq where
  file : Option UploadedFile
  name : String
  description : String
  detailDescription : String
  price : Nat
  stock : Nat
  protocol : String
  host : String
deriving Repr, DecidableEq

/-- The absolute upload base URL a product handler builds from the request:
`req.protocol + "://" + req.get("host") + "/public/uploads/"`. -/
def uploadBasePath (protocol host : String) : String :=
  protocol ++ "://" ++ host ++ "/public/uploads/"

/-- Outcome of the POST /products handler. -/
inductive ProductPostResult where
  /-- 400: "Image file is not presented". -/
  | badRequest
  /-- 200: `res.send(product)` with the saved product document and its id. -/
  | ok (id : Nat) (p : Product)
deriving Repr, DecidableEq

/-- The POST /products handler (src/unnamed/part_000 lines 215-248): reject
with 400 when no file is attached, otherwise build the product with an image
URL of base path plus generated filename and save it.  A successful save
returns the document, so the `!product` 404 branch after the save is dead in
this model (save errors go to the attached catch, not modelled by an input
here since no claim under verification exercises them). -/
def postProduct (req : ProductPostReq) (db : DB) : ProductPostResult × DB :=
  match req.file with
  | none => (.badRequest, db)
  | some f =>
      let basePath := uploadBasePath req.protocol req.host
      let product : Product :=
        { name := req.name
          description := req.description
          detailDescription := req.detailDescription
          image := basePath ++ f.filename
          images := []
          price := req.price
          stock := req.stock }
      let pid := db.nextId
      (.ok pid product,
        { db with
          products := db.products ++ [(pid, product)]
          nextId := db.nextId + 1 })

/-- A PUT /products/gallery-images/:id request as the handler sees it after
the upload middleware: `files` is `none` when no image files are attached
(the `!files` branch of the source); the middleware accepts at most 10
files. -/
structure GalleryPutReq where
  id : Nat
  files : Option (List UploadedFile)
  protocol : String
  host : String
deriving Repr, DecidableEq

/-- Outcome of the PUT /products/gallery-images/:id handler. -/
inductive GalleryPutResult where
  /-- 400: "Image file is not presented". -/
  | badRequest
  /-- 404: "Product with given ID is not found!". -/
  | notFound
  /-- 200: `res.send(product)` with the updated product document. -/
  | ok (p : Product)
deriving Repr, DecidableEq

/-- The PUT /products/gallery-images/:id handler (src/unnamed/part_000 lines
292-332): 400 when no files are attached; otherwise build one URL per
uploaded file (base path plus generated filename, in order) and
`findByIdAndUpdate` the product, setting its `images` field to exactly that
list (`{ new: true }` returns the updated document); 404 when no product has
the id. -/
def putGalleryImages (req : GalleryPutReq) (db : DB) : GalleryPutResult × DB :=
  match req.files with
  | none => (.badRequest, db)
  | some files =>
      let basePath := uploadBasePath req.protocol req.host
      let imagesPaths := files.map (fun f => basePath ++ f.filename)
      match db.products.lookup req.id with
      | none => (.notFound, db)
      | some p =>
          let updated : Product := { p with images := imagesPaths }
          (.ok updated, { db with products := updateId db.products req.id updated })

/-- What `Product.find()` resolved to in the GET /products handler: `err` is
a storage error (handled by the attached `.catch`), `ok v` a resolved query
where `v = none` models a null result (the `!productList` branch) and
`ok (some l)` the usual list. -/
inductive FindOutcome (α : Type) where
  | err
  | ok (v : Option α)
deriving Repr, DecidableEq

/-- One attempted response of the GET /products handler. -/
inductive ProductsListResp where
  /-- `res.status(s).json({success := false, message-or-error := msg})`. -/
  | json (status : Nat) (msg : String)
  /-- `res.send(productList)` with the resolved list. -/
  | sendList (l : List (Nat × Product))
  /-- `res.send(productList)` where `productList` is null. -/
  | sendNull
  /-- `res.send(productList)` where `productList` is the response object the
  catch callback returned (the awaited promise resolves to it; it is truthy,
  so the `!productList` branch is skipped). -/
  | sendResObject
deriving Repr, DecidableEq

/-- The GET /products handler (src/unnamed/part_000 lines 104-120) as the
sequence of responses it attempts on one request, in order.  On a storage
error the catch callback answers 400 "Internal Server Error" and execution
continues with `productList` bound to the (truthy) response object, so
`res.send` is still reached; on a null result the handler answers the
404-shaped body and still reaches `res.send(productList)` with the null
value; on a list it sends the list once. -/
def getProductsRoute (o : FindOutcome (List (Nat × Product))) : List ProductsListResp :=
  match o with
  | .err => [.json 400 ("Internal Server Error"), .sendResObject]
  | .ok none => [.json 404 ("Products not found"), .sendNull]
  | .ok (some l) => [.sendList l]

/-! ## User routes (src/unnamed/part_000, lines 335-653) -/

/-- Modelled from the spec: the bcryptjs `hash` function (the library is not
part of the repository).  The spec only relies on hashing with a cost factor,
on the hash differing from the plaintext, and on verification of the
plaintext against the stored hash succeeding; the model renders
`hash(pw, cost)` as the bcrypt-shaped string `$2a$<cost>$<pw>`, which is
injective in the plaintext and never equal to it. -/
def bcryptHash (pw : String) (cost : Nat) : String :=
  "$2a$" ++ toString cost ++ "$" ++ pw

/-- Modelled from the spec: the bcryptjs `compare` function — verifies a
plaintext against a stored hash by re-hashing the plaintext with the cost
recorded in the hash and comparing; rendered as: the stored string is the
hash of the plaintext at some valid cost (bcrypt costs are below 32). -/
def bcryptCompare (pw stored : String) : Bool :=
  (List.range 32).any (fun cost => stored == bcryptHash pw cost)

/-- Modelled from the spec: `bycrypt.hash(req.body.password, 11)` applied to
whatever password value the request supplied — the spec states the update
handler "unconditionally hashes whatever password value is supplied (even if
empty/undefined)"; an absent value is hashed as the string coercion of
undefined. -/
def bcryptHashField (pw : Option String) (cost : Nat) : String :=
  bcryptHash (match pw with | some s => s | none => "undefined") cost

/-- A POST /users or PUT /users/:id request body: every field can be absent
(undefined) in the JSON body. -/
structure UserBody where
  name : Option String
  email : Option String
  password : Option String
  isAdmin : Option Bool
deriving Repr, DecidableEq

/-- The user document a create/update handler constructs from a request body
(src/unnamed/part_000 lines 507-514 and 583-592): name, email and isAdmin
are taken as supplied (possibly undefined), the password field is the
unconditional cost-11 hash of the supplied password value. -/
def userDocOfBody (b : UserBody) : UserDoc :=
  { name := b.name
    email := b.email
    password := bcryptHashField b.password 11
    isAdmin := b.isAdmin }

/-- Outcome of the POST /users handler. -/
inductive UserPostResult where
  /-- 200: `res.send(user)` with the saved user document and its id. -/
  | ok (id : Nat) (u : UserDoc)
deriving Repr, DecidableEq

/-- The POST /users handler (src/unnamed/part_000 lines 505-531): hash the
supplied password with cost factor 11, construct the user document and save
it.  A successful save returns the document, so the `!user` 400 branch is
dead in this model, and the catch-all 500 branch has no modelled trigger
(the spec-modelled hash is total and the save succeeds). -/
def postUser (b : UserBody) (db : DB) : UserPostResult × DB :=
  let user := userDocOfBody b
  let uid := db.nextId
  (.ok uid user,
    { db with
      users := db.users ++ [(uid, user)]
      nextId := db.nextId + 1 })

/-- Outcome of the PUT /users/:id handler. -/
inductive UserPutResult where
  /-- 200: `res.send(user)` with the updated user document. -/
  | ok (u : UserDoc)
  /-- 404: "User with given ID is not found!". -/
  | notFound
deriving Repr, DecidableEq

/-- The PUT /users/:id handler (src/unnamed/part_000 lines 581-608): hash the
supplied password value unconditionally with cost factor 11, then
`findByIdAndUpdate` the user, overwriting name, email, password and isAdmin
with the supplied values (`{ new: true }` returns the updated document); 404
when no user has the id. -/
def putUser (id : Nat) (b : UserBody) (db : DB) : UserPutResult × DB :=
  let updated := userDocOfBody b
  match db.users.lookup id with
  | none => (.notFound, db)
  | some _ => (.ok updated, { db with users := updateId db.users id updated })

/-- Outcome of the GET /users/:id handler. -/
inductive UserGetResult where
  /-- 200: `res.send(user)` with the stored user document, unfiltered. -/
  | ok (u : UserDoc)
  /-- 404: "User with given ID is not found". -/
  | notFound
deriving Repr, DecidableEq

/-- The GET /users/:id handler (src/unnamed/part_000 lines 445-461) on a
resolved query: 404 when no user has the id, otherwise `res.send(user)` with
the raw stored document — no field is filtered. -/
def getUserByIdRoute (id : Nat) (db : DB) : UserGetResult :=
  match db.users.lookup id with
  | none => .notFound
  | some u => .ok u

/-- The GET /users handler (src/unnamed/part_000 lines 401-417) on a resolved
query: `res.send(userList)` with the raw stored documents — no field is
filtered. -/
def getUsersRoute (db : DB) : List (Nat × UserDoc) :=
  db.users

/-! ## Derived forms the theorems compare the handlers against, and concrete
stores used to instantiate the theorems. -/

/-- The price of the product stored under `pid` (0 when absent; the theorems
using it always assume the product exists). -/
def productPrice (prods : List (Nat × Product)) (pid : Nat) : Nat :=
  match prods.lookup pid with
  | some p => p.price
  | none => 0

/-- The expected outcome of a successful POST /orders on `db`: one OrderItem
document per input item appended to the store under the next ids in order,
the order referencing exactly those ids, and a total price that is the sum
over the items of the referenced product price times the item quantity. -/
def postOrderExpected (items : List OrderItemInput) (userId : Nat) (db : DB) :
    OrderPostResult × DB :=
  let ids := List.range' db.nextId items.length
  let total := (items.map (fun it => productPrice db.products it.product * it.quantity)).sum
  let order : OrderDoc := ⟨ids, total, userId⟩
  let oid := db.nextId + items.length
  (.ok oid order,
    { db with
      orderItems := db.orderItems ++ ids.zip (items.map orderItemDocOf)
      orders := db.orders ++ [(oid, order)]
      nextId := db.nextId + items.length + 1 })

/-- The store a failing POST /orders leaves behind: every OrderItem document
saved by the first step is still there, and nothing else changed. -/
def postOrderFailState (items : List OrderItemInput) (db : DB) : DB :=
  { db with
    orderItems := db.orderItems ++
      (List.range' db.nextId items.length).zip (items.map orderItemDocOf)
    nextId := db.nextId + items.length }

/-- A concrete store instantiating the theorems: two products, one user, two
order-item documents and one order referencing them. -/
def dbW : DB :=
  { products :=
      [(0, ⟨"Shirt", "d", "dd", "img0", [], 100, 5⟩),
       (1, ⟨"Hat", "d", "dd", "img1", ["g1"], 7, 9⟩)]
    users := [(2, ⟨some ("Ana"), some ("a@b.c"), "stored", some false⟩)]
    orderItems := [(3, ⟨2, 0⟩), (4, ⟨1, 1⟩)]
    orders := [(5, ⟨[3, 4], 207, 2⟩)]
    nextId := 6 }

/-- The product stored under id 0 of `dbW`. -/
def prodShirt : Product := ⟨"Shirt", "d", "dd", "img0", [], 100, 5⟩

/-- The user document stored under id 2 of `dbW`. -/
def userAna : UserDoc := ⟨some ("Ana"), some ("a@b.c"), "stored", some false⟩

/-- A concrete product-creation request with no attached image file. -/
def productReqNoFile : ProductPostReq :=
  { file := none, name := "Shirt", description := "d", detailDescription := "dd"
    price := 1000, stock := 5, protocol := "http", host := "localhost:4001" }

/-- A concrete gallery update with no attached files. -/
def galleryReqNoFiles : GalleryPutReq :=
  { id := 0, files := none, protocol := "http", host := "localhost:4001" }

/-- A concrete gallery update with two attached files against product 0. -/
def galleryReqTwoFiles : GalleryPutReq :=
  { id := 0, files := some [⟨"a.png"⟩, ⟨"b.png"⟩]
    protocol := "http", host := "localhost:4001" }

/-- A concrete gallery update against an id no product carries. -/
def galleryReqMissing : GalleryPutReq :=
  { id := 9, files := some [⟨"a.png"⟩], protocol := "http", host := "localhost:4001" }

/-- A concrete user-creation body with every field supplied. -/
def userBodyW : UserBody :=
  { name := some ("Ana"), email := some ("a@b.c")
    password := some ("thisispassword"), isAdmin := some true }

/-- A concrete user-update body with the password (and most fields) absent. -/
def userBodyNoPw : UserBody :=
  { name := none, email := some ("new@b.c"), password := none, isAdmin := none }

/-! ## Lemmas about the keyed-store operations -/

/-- Looking up a key that no entry of the first part carries skips to the
second part. -/
theorem lookup_append_right {α : Type} (l₁ l₂ : List (Nat × α)) (k : Nat)
    (h : ∀ p ∈ l₁, p.1 ≠ k) : (l₁ ++ l₂).lookup k = l₂.lookup k := by
  induction l₁ with
  | nil => rfl
  | cons a l ih =>
      obtain ⟨a1, a2⟩ := a
      have ha : a1 ≠ k := h (a1, a2) (List.mem_cons_self _ _)
      have hb : (k == a1) = false := beq_eq_false_iff_ne.mpr (fun e => ha e.symm)
      calc ((a1, a2) :: l ++ l₂).lookup k
          = (l ++ l₂).lookup k := by
            rw [List.cons_append, List.lookup_cons, hb]
        _ = l₂.lookup k := ih (fun p hp => h p (List.mem_cons_of_mem _ hp))

/-- After removing key `k`, a lookup of `k` finds nothing. -/
theorem lookup_removeId_self {α : Type} (l : List (Nat × α)) (k : Nat) :
    (removeId l k).lookup k = none := by
  induction l with
  | nil => rfl
  | cons a l ih =>
      obtain ⟨a1, a2⟩ := a
      by_cases h : a1 = k
      · subst h
        simpa [removeId, List.filter_cons] using ih
      · have hb : (k == a1) = false := beq_eq_false_iff_ne.mpr (fun e => h e.symm)
        simpa [removeId, List.filter_cons, h, List.lookup_cons, hb] using ih

/-- Removal never resurrects a key: an absent key stays absent. -/
theorem lookup_removeId_none {α : Type} (l : List (Nat × α)) (k k2 : Nat)
    (h : l.lookup k = none) : (removeId l k2).lookup k = none := by
  induction l with
  | nil => rfl
  | cons a l ih =>
      obtain ⟨a1, a2⟩ := a
      rw [List.lookup_cons] at h
      by_cases hk : k = a1
      · simp [hk] at h
      · have hb : (k == a1) = false := beq_eq_false_iff_ne.mpr hk
        rw [hb] at h
        by_cases h2 : a1 = k2
        · simpa [removeId, List.filter_cons, h2] using ih h
        · simpa [removeId, List.filter_cons, h2, List.lookup_cons, hb] using ih h

/-- A key absent from the store stays absent through a sequence of removals. -/
theorem lookup_foldl_removeId_none {α : Type} (ids : List Nat)
    (l : List (Nat × α)) (k : Nat) (h : l.lookup k = none) :
    (ids.foldl (fun acc oid => removeId acc oid) l).lookup k = none := by
  induction ids generalizing l with
  | nil => simpa using h
  | cons i ids ih => simpa using ih _ (lookup_removeId_none l k i h)

/-- Folding removals over a list of ids removes every one of them. -/
theorem lookup_foldl_removeId_mem {α : Type} (ids : List Nat)
    (l : List (Nat × α)) (k : Nat) (h : k ∈ ids) :
    (ids.foldl (fun acc oid => removeId acc oid) l).lookup k = none := by
  induction ids generalizing l with
  | nil => cases h
  | cons i ids ih =>
      rcases List.mem_cons.mp h with h1 | h2
      · subst h1
        exact lookup_foldl_removeId_none ids _ k (lookup_removeId_self l k)
      · exact ih _ h2

/-! ## Lemmas about order creation -/

/-- Characterization of the first step of POST /orders: the collected ids are
the next `items.length` counter values in order, and the store gains exactly
one OrderItem document per input item, keyed by those ids in order. -/
theorem saveOrderItems_spec (items : List OrderItemInput) (db : DB) :
    saveOrderItems items db =
      (List.range' db.nextId items.length,
       { db with
         orderItems := db.orderItems ++
           (List.range' db.nextId items.length).zip (items.map orderItemDocOf)
         nextId := db.nextId + items.length }) := by
  induction items generalizing db with
  | nil =>
      obtain ⟨ps, us, ois, os, n⟩ := db
      simp [saveOrderItems]
  | cons it rest ih =>
      show (db.nextId :: (saveOrderItems rest _).1, (saveOrderItems rest _).2) = _
      rw [ih]
      simp only [List.length_cons, List.range'_succ, List.map_cons, List.zip_cons_cons]
      refine Prod.ext rfl ?_
      simp [List.append_assoc]
      omega

/-- Second step of POST /orders, success case: when every referenced product
exists, re-fetching the freshly saved order items (stored past a base whose
keys are all below the first fresh id) yields exactly each product price
times the item quantity. -/
theorem computeTotals_all_found (prods : List (Nat × Product))
    (base : List (Nat × OrderItemDoc)) (items : List OrderItemInput) (n : Nat)
    (hbase : ∀ p ∈ base, p.1 < n)
    (hprod : ∀ it ∈ items, (prods.lookup it.product).isSome) :
    computeTotals (base ++ (List.range' n items.length).zip (items.map orderItemDocOf))
        prods (List.range' n items.length)
      = some (items.map (fun it => productPrice prods it.product * it.quantity)) := by
  induction items generalizing base n with
  | nil => rfl
  | cons it rest ih =>
      obtain ⟨p, hp⟩ := Option.isSome_iff_exists.mp (hprod it (List.mem_cons_self _ _))
      have hL : base ++
            (List.range' n (it :: rest).length).zip ((it :: rest).map orderItemDocOf)
          = (base ++ [(n, orderItemDocOf it)]) ++
            (List.range' (n + 1) rest.length).zip (rest.map orderItemDocOf) := by
        simp [List.range'_succ, List.append_assoc]
      have hbase2 : ∀ q ∈ base ++ [(n, orderItemDocOf it)], q.1 < n + 1 := by
        intro q hq
        rcases List.mem_append.mp hq with h1 | h2
        · exact Nat.lt_succ_of_lt (hbase q h1)
        · rw [List.mem_singleton] at h2
          subst h2
          simp
      have hrest := ih (base ++ [(n, orderItemDocOf it)]) (n + 1) hbase2
        (fun x hx => hprod x (List.mem_cons_of_mem it hx))
      have hlookup : ((base ++ [(n, orderItemDocOf it)]) ++
            (List.range' (n + 1) rest.length).zip (rest.map orderItemDocOf)).lookup n
          = some (orderItemDocOf it) := by
        rw [List.append_assoc,
          lookup_append_right base _ n (fun q hq => Nat.ne_of_lt (hbase q hq))]
        simp [List.lookup_cons]
      have hit : itemTotal ((base ++ [(n, orderItemDocOf it)]) ++
            (List.range' (n + 1) rest.length).zip (rest.map orderItemDocOf)) prods n
          = some (p.price * it.quantity) := by
        have h1 := hlookup
        simp only [orderItemDocOf] at h1 ⊢
        simp only [itemTotal, h1, hp]
      rw [hL]
      show computeTotals _ prods (List.range' n (rest.length + 1)) = _
      rw [List.range'_succ]
      simp only [computeTotals, hit, hrest, List.map_cons]
      simp [productPrice, hp]

/-- Second step of POST /orders, failure case: when some input item references
a product that does not exist, the re-fetch sequence fails (the null product
dereference throws). -/
theorem computeTotals_missing (prods : List (Nat × Product))
    (base : List (Nat × OrderItemDoc)) (items : List OrderItemInput) (n : Nat)
    (hbase : ∀ p ∈ base, p.1 < n)
    (hmiss : ∃ it ∈ items, prods.lookup it.product = none) :
    computeTotals (base ++ (List.range' n items.length).zip (items.map orderItemDocOf))
        prods (List.range' n items.length)
      = none := by
  induction items generalizing base n with
  | nil => simp at hmiss
  | cons it rest ih =>
      have hL : base ++
            (List.range' n (it :: rest).length).zip ((it :: rest).map orderItemDocOf)
          = (base ++ [(n, orderItemDocOf it)]) ++
            (List.range' (n + 1) rest.length).zip (rest.map orderItemDocOf) := by
        simp [List.range'_succ, List.append_assoc]
      have hbase2 : ∀ q ∈ base ++ [(n, orderItemDocOf it)], q.1 < n + 1 := by
        intro q hq
        rcases List.mem_append.mp hq with h1 | h2
        · exact Nat.lt_succ_of_lt (hbase q h1)
        · rw [List.mem_singleton] at h2
          subst h2
          simp
      have hlookup : ((base ++ [(n, orderItemDocOf it)]) ++
            (List.range' (n + 1) rest.length).zip (rest.map orderItemDocOf)).lookup n
          = some (orderItemDocOf it) := by
        rw [List.append_assoc,
          lookup_append_right base _ n (fun q hq => Nat.ne_of_lt (hbase q hq))]
        simp [List.lookup_cons]
      rw [hL]
      show computeTotals _ prods (List.range' n (rest.length + 1)) = _
      rw [List.range'_succ]
      rcases hmiss with ⟨x, hx, hxnone⟩
      rcases List.mem_cons.mp hx with h1 | h2
      · subst h1
        have hit : itemTotal ((base ++ [(n, orderItemDocOf x)]) ++
              (List.range' (n + 1) rest.length).zip (rest.map orderItemDocOf)) prods n
            = none := by
          have h1 := hlookup
          simp only [orderItemDocOf] at h1 ⊢
          simp only [itemTotal, h1, hxnone]
        simp only [computeTotals, hit]
      · have hrest := ih (base ++ [(n, orderItemDocOf it)]) (n + 1) hbase2 ⟨x, h2, hxnone⟩
        simp only [computeTotals, hrest]
        cases itemTotal ((base ++ [(n, orderItemDocOf it)]) ++
            (List.range' (n + 1) rest.length).zip (rest.map orderItemDocOf)) prods n <;> rfl

/-- `reduce((a, b) => a + b, 0)` is list sum. -/
theorem foldl_add_eq_sum (l : List Nat) (a : Nat) :
    l.foldl (· + ·) a = a + l.sum := by
  induction l generalizing a with
  | nil => simp
  | cons x l ih => simp [ih, Nat.add_assoc]

/-! ## Claims about POST /orders -/

/-- C1: For every order-creation request (POST /orders) with N order items,
each referencing an existing product, the created order's totalPrice equals
the sum over the N items of the referenced product's price at creation time
times the item's quantity, exactly N OrderItem documents are created, and
their ids are stored, in order, in the order's orderItems field — all
captured by `postOrderExpected`, together with the explicit count of created
OrderItem documents. -/
theorem postOrder_creates_order_correctly (items : List OrderItemInput)
    (userId : Nat) (db : DB) (hwf : keysBelow db.orderItems db.nextId)
    (hprod : ∀ it ∈ items, (db.products.lookup it.product).isSome) :
    postOrder items userId db = postOrderExpected items userId db ∧
    (postOrder items userId db).2.orderItems.length
      = db.orderItems.length + items.length := by
  have hsave := saveOrderItems_spec items db
  have hct := computeTotals_all_found db.products db.orderItems items db.nextId hwf hprod
  have hmain : postOrder items userId db = postOrderExpected items userId db := by
    simp only [postOrder, postOrderExpected, hsave, hct]
    rw [foldl_add_eq_sum]
    simp
  refine ⟨hmain, ?_⟩
  rw [hmain]
  simp [postOrderExpected, List.length_zip, List.length_range']

/-- Witness for the order-creation correctness theorem: a concrete request of
two items against `dbW` (product prices 100 and 7, quantities 2 and 3). -/
theorem postOrder_creates_order_correctly_witness :
    postOrder [⟨2, 0⟩, ⟨3, 1⟩] 2 dbW = postOrderExpected [⟨2, 0⟩, ⟨3, 1⟩] 2 dbW ∧
    (postOrder [⟨2, 0⟩, ⟨3, 1⟩] 2 dbW).2.orderItems.length
      = dbW.orderItems.length + ([(⟨2, 0⟩ : OrderItemInput), ⟨3, 1⟩]).length :=
  postOrder_creates_order_correctly [⟨2, 0⟩, ⟨3, 1⟩] 2 dbW (by decide) (by decide)

/-- C9: POST /orders with an empty orderItems list succeeds: the response is
the saved order with empty orderItems and totalPrice 0, and no OrderItem
document is created. -/
theorem postOrder_empty_ok (userId : Nat) (db : DB) :
    postOrder [] userId db =
      (.ok db.nextId ⟨[], 0, userId⟩,
       { db with
         orders := db.orders ++ [(db.nextId, ⟨[], 0, userId⟩)]
         nextId := db.nextId + 1 }) ∧
    (postOrder [] userId db).2.orderItems = db.orderItems := by
  constructor <;> rfl

/-- C6: when an order-creation request fails after the OrderItem documents
have been created (here: some item references a product that does not exist,
so the re-fetch step throws), the response is the generic 500 and all the
created OrderItem documents remain persisted — no cleanup, and no order is
created. -/
theorem postOrder_failure_no_cleanup (items : List OrderItemInput)
    (userId : Nat) (db : DB) (hwf : keysBelow db.orderItems db.nextId)
    (hmiss : ∃ it ∈ items, db.products.lookup it.product = none) :
    postOrder items userId db = (.serverError, postOrderFailState items db) ∧
    0 < items.length ∧
    (postOrder items userId db).2.orderItems.length
      = db.orderItems.length + items.length ∧
    (postOrder items userId db).2.orders = db.orders := by
  have hsave := saveOrderItems_spec items db
  have hct := computeTotals_missing db.products db.orderItems items db.nextId hwf hmiss
  have hmain : postOrder items userId db = (.serverError, postOrderFailState items db) := by
    simp only [postOrder, postOrderFailState, hsave, hct]
  refine ⟨hmain, ?_, ?_, ?_⟩
  · rcases hmiss with ⟨x, hx, _⟩
    exact List.length_pos.mpr (List.ne_nil_of_mem hx)
  · rw [hmain]
    simp [postOrderFailState, List.length_zip, List.length_range']
  · rw [hmain]
    simp [postOrderFailState]

/-- Witness for the failure-keeps-items theorem: one item referencing the
absent product id 9 against `dbW`. -/
theorem postOrder_failure_no_cleanup_witness :
    postOrder [⟨2, 9⟩] 2 dbW = (.serverError, postOrderFailState [⟨2, 9⟩] dbW) ∧
    0 < ([(⟨2, 9⟩ : OrderItemInput)]).length ∧
    (postOrder [⟨2, 9⟩] 2 dbW).2.orderItems.length
      = dbW.orderItems.length + ([(⟨2, 9⟩ : OrderItemInput)]).length ∧
    (postOrder [⟨2, 9⟩] 2 dbW).2.orders = dbW.orders :=
  postOrder_failure_no_cleanup [⟨2, 9⟩] 2 dbW (by decide) (by decide)

/-! ## Claim about DELETE /orders/:id -/

/-- C4: deleting an existing order answers 200, removes the Order document,
and removes every OrderItem document referenced by its orderItems field, so
a subsequent fetch of the order or of any of its former OrderItem ids
returns not-found. -/
theorem deleteOrder_removes_order_and_items (id : Nat) (db : DB) (o : OrderDoc)
    (h : db.orders.lookup id = some o) :
    (deleteOrder id db).1 = .ok ∧
    (deleteOrder id db).2.orders.lookup id = none ∧
    ∀ oid ∈ o.orderItems, (deleteOrder id db).2.orderItems.lookup oid = none := by
  simp only [deleteOrder, h]
  refine ⟨trivial, ?_, ?_⟩
  · exact lookup_removeId_self db.orders id
  · intro oid hm
    exact lookup_foldl_removeId_mem o.orderItems db.orderItems oid hm

/-- Witness for the delete-order theorem: the order stored under id 5 of
`dbW`, which references the OrderItem documents 3 and 4. -/
theorem deleteOrder_removes_witness :
    (deleteOrder 5 dbW).1 = .ok ∧
    (deleteOrder 5 dbW).2.orders.lookup 5 = none ∧
    ∀ oid ∈ (OrderDoc.mk [3, 4] 207 2).orderItems,
      (deleteOrder 5 dbW).2.orderItems.lookup oid = none :=
  deleteOrder_removes_order_and_items 5 dbW ⟨[3, 4], 207, 2⟩ (by decide)

/-! ## Claims about the product routes -/

/-- C2: POST /products with no attached image file answers 400 and persists
no Product document — the product store is unchanged by the request. -/
theorem postProduct_no_file_rejected (req : ProductPostReq) (db : DB)
    (h : req.file = none) :
    postProduct req db = (.badRequest, db) ∧
    (postProduct req db).2.products = db.products := by
  simp [postProduct, h]

/-- Witness for the missing-image rejection at a concrete request. -/
theorem postProduct_no_file_witness :
    postProduct productReqNoFile dbW = (.badRequest, dbW) ∧
    (postProduct productReqNoFile dbW).2.products = dbW.products :=
  postProduct_no_file_rejected productReqNoFile dbW rfl

/-- C7: PUT /products/gallery-images/:id — 400 when no image files are
attached; with one to ten attached files and an existing product, the
product's images sequence is replaced (not appended to) by the generated
URLs of the uploaded files, in order; 404 when no product has the id. -/
theorem putGalleryImages_replaces_images (req : GalleryPutReq) (db : DB) :
    (req.files = none → putGalleryImages req db = (.badRequest, db)) ∧
    (∀ files, req.files = some files → 0 < files.length → files.length ≤ 10 →
      (db.products.lookup req.id = none →
        putGalleryImages req db = (.notFound, db)) ∧
      (∀ p, db.products.lookup req.id = some p →
        putGalleryImages req db =
          (.ok { p with images :=
              (files.map (fun f => uploadBasePath req.protocol req.host ++ f.filename)) },
           { db with products :=
              (updateId db.products req.id
                { p with images :=
                  (files.map (fun f => uploadBasePath req.protocol req.host ++ f.filename)) }) }))) := by
  constructor
  · intro h
    simp [putGalleryImages, h]
  · intro files hf _ _
    constructor
    · intro hnone
      simp [putGalleryImages, hf, hnone]
    · intro p hp
      simp [putGalleryImages, hf, hp]

/-- Witness for the gallery-update theorem: the three behaviours at concrete
requests against `dbW` (no files; files against an absent product id; two
files against the product stored under id 0). -/
theorem putGalleryImages_witness :
    putGalleryImages galleryReqNoFiles dbW = (.badRequest, dbW) ∧
    putGalleryImages galleryReqMissing dbW = (.notFound, dbW) ∧
    putGalleryImages galleryReqTwoFiles dbW =
      (.ok { prodShirt with images :=
          ([(⟨"a.png"⟩ : UploadedFile), ⟨"b.png"⟩].map
            (fun f => uploadBasePath galleryReqTwoFiles.protocol
              galleryReqTwoFiles.host ++ f.filename)) },
       { dbW with products :=
          (updateId dbW.products 0
            { prodShirt with images :=
              ([(⟨"a.png"⟩ : UploadedFile), ⟨"b.png"⟩].map
                (fun f => uploadBasePath galleryReqTwoFiles.protocol
                  galleryReqTwoFiles.host ++ f.filename)) }) }) := by
  refine ⟨(putGalleryImages_replaces_images galleryReqNoFiles dbW).1 rfl, ?_, ?_⟩
  · exact ((putGalleryImages_replaces_images galleryReqMissing dbW).2
      [⟨"a.png"⟩] rfl (by decide) (by decide)).1 (by decide)
  · exact ((putGalleryImages_replaces_images galleryReqTwoFiles dbW).2
      [⟨"a.png"⟩, ⟨"b.png"⟩] rfl (by decide) (by decide)).2 prodShirt (by decide)

/-- C8: GET /products — a storage error yields the generic 400 response
first, and a null query result makes the handler send the 404-shaped body
and then still send the null list as a second response on the same
request. -/
theorem getProductsRoute_double_response :
    (getProductsRoute FindOutcome.err).head? =
      some (.json 400 ("Internal Server Error")) ∧
    getProductsRoute (FindOutcome.ok none) =
      [.json 404 ("Products not found"), .sendNull] := by
  constructor <;> rfl

/-! ## Claims about the user routes -/

/-- The modelled bcrypt hash is never the plaintext it hashes. -/
theorem bcryptHash_ne_plaintext (pw : String) (cost : Nat) :
    bcryptHash pw cost ≠ pw := by
  intro h
  have hlen := congrArg String.length h
  simp only [bcryptHash, String.length_append] at hlen
  have h4 : ("$2a$" : String).length = 4 := rfl
  have h1 : ("$" : String).length = 1 := rfl
  omega

/-- Verifying a plaintext against its own hash at a valid cost succeeds. -/
theorem bcryptCompare_hash (pw : String) (cost : Nat) (h : cost < 32) :
    bcryptCompare pw (bcryptHash pw cost) = true := by
  simp only [bcryptCompare, List.any_eq_true]
  exact ⟨cost, List.mem_range.mpr h, by simp⟩

/-- C3: POST /users persists the cost-11 bcrypt hash of the supplied
plaintext password: the created document is appended to the user store, its
password field is the hash — which differs from the plaintext — and
verifying the plaintext against the stored hash succeeds. -/
theorem postUser_hashes_password (b : UserBody) (db : DB) (pw : String)
    (hpw : b.password = some pw) (hwf : keysBelow db.users db.nextId) :
    ∃ uid doc,
      postUser b db =
        (.ok uid doc,
         { db with users := db.users ++ [(uid, doc)], nextId := db.nextId + 1 }) ∧
      (postUser b db).2.users.lookup uid = some doc ∧
      doc.password = bcryptHash pw 11 ∧
      doc.password ≠ pw ∧
      bcryptCompare pw doc.password = true := by
  refine ⟨db.nextId, userDocOfBody b, rfl, ?_, ?_, ?_, ?_⟩
  · show (db.users ++ [(db.nextId, userDocOfBody b)]).lookup db.nextId = _
    rw [lookup_append_right db.users _ db.nextId (fun p hp => Nat.ne_of_lt (hwf p hp))]
    simp [List.lookup_cons]
  · simp [userDocOfBody, bcryptHashField, hpw]
  · simp only [userDocOfBody, bcryptHashField, hpw]
    exact bcryptHash_ne_plaintext pw 11
  · simp only [userDocOfBody, bcryptHashField, hpw]
    exact bcryptCompare_hash pw 11 (by omega)

/-- Witness for the user-creation hashing theorem at a concrete body. -/
theorem postUser_hashes_password_witness :
    ∃ uid doc,
      postUser userBodyW dbW =
        (.ok uid doc,
         { dbW with users := dbW.users ++ [(uid, doc)], nextId := dbW.nextId + 1 }) ∧
      (postUser userBodyW dbW).2.users.lookup uid = some doc ∧
      doc.password = bcryptHash ("thisispassword") 11 ∧
      doc.password ≠ ("thisispassword") ∧
      bcryptCompare ("thisispassword") doc.password = true :=
  postUser_hashes_password userBodyW dbW ("thisispassword") rfl (by decide)

/-- C5: PUT /users/:id unconditionally hashes the supplied password value —
even an absent (undefined) one — and overwrites name, email, password and
isAdmin wholesale with the supplied values, absent fields overwriting to
undefined; 404 when no user has the id. -/
theorem putUser_overwrites_all_fields (id : Nat) (b : UserBody) (db : DB) :
    (db.users.lookup id = none → putUser id b db = (.notFound, db)) ∧
    (∀ u, db.users.lookup id = some u →
      putUser id b db =
        (.ok ⟨b.name, b.email, bcryptHashField b.password 11, b.isAdmin⟩,
         { db with users :=
            (updateId db.users id
              ⟨b.name, b.email, bcryptHashField b.password 11, b.isAdmin⟩) })) := by
  constructor
  · intro h
    simp [putUser, h]
  · intro u h
    simp [putUser, userDocOfBody, h]

/-- Witness for the user-update theorem: updating the stored user 2 of `dbW`
with a body whose password (and name and isAdmin) are absent, and updating
an id no user carries. -/
theorem putUser_overwrites_witness :
    putUser 2 userBodyNoPw dbW =
      (.ok ⟨userBodyNoPw.name, userBodyNoPw.email,
          bcryptHashField userBodyNoPw.password 11, userBodyNoPw.isAdmin⟩,
       { dbW with users :=
          (updateId dbW.users 2
            ⟨userBodyNoPw.name, userBodyNoPw.email,
              bcryptHashField userBodyNoPw.password 11, userBodyNoPw.isAdmin⟩) }) ∧
    putUser 9 userBodyNoPw dbW = (.notFound, dbW) := by
  constructor
  · exact (putUser_overwrites_all_fields 2 userBodyNoPw dbW).2 userAna (by decide)
  · exact (putUser_overwrites_all_fields 9 userBodyNoPw dbW).1 (by decide)

/-- C10: the user read endpoints (GET /users and GET /users/:id) answer with
the raw stored User document(s): the whole document, its password field —
the stored hash — included, with no field filtered. -/
theorem userReads_return_raw_documents (db : DB) (id : Nat) (u : UserDoc)
    (h : db.users.lookup id = some u) :
    getUserByIdRoute id db = .ok u ∧
    getUsersRoute db = db.users ∧
    (getUsersRoute db).lookup id = some u := by
  refine ⟨?_, rfl, h⟩
  simp [getUserByIdRoute, h]

/-- Witness for the raw-document read theorem at the stored user 2 of
`dbW`. -/
theorem userReads_raw_witness :
    getUserByIdRoute 2 dbW = .ok userAna ∧
    getUsersRoute dbW = dbW.users ∧
    (getUsersRoute dbW).lookup 2 = some userAna :=
  userReads_return_raw_documents dbW 2 userAna (by decide)
